import Mathlib

/-!
Shallow embedding of `image_to_text.py` (repository `clio`).

The program resolves a creation timestamp for each image file (EXIF
metadata preferred, filesystem mtime as fallback), sorts the files by
that timestamp with Python's stable `sorted`, and appends one labeled
OCR text block per file to an output artifact.

External collaborators (PIL image decoding, pytesseract OCR, the
filesystem) are modeled as data carried by a `FileState`: whether
`Image.open` raises, the EXIF mapping in its iteration order, the
mtime already converted to a calendar datetime, and the OCR outcome.
Everything the program itself computes is embedded as executable Lean
definitions.
-/

namespace Clio

/-- A naive Python `datetime.datetime` (microseconds are always zero in
this program, so they are omitted).  Python compares naive datetimes
lexicographically on their fields. -/
structure Datetime where
  year : Nat
  month : Nat
  day : Nat
  hour : Nat
  minute : Nat
  second : Nat
deriving DecidableEq

/-- The lexicographic comparison key of a datetime: Python's
`datetime < datetime` is exactly the lexicographic order on
`(year, month, day, hour, minute, second)`. -/
def Datetime.key (d : Datetime) : Nat ×ₗ Nat ×ₗ Nat ×ₗ Nat ×ₗ Nat ×ₗ Nat :=
  toLex (d.year, toLex (d.month, toLex (d.day, toLex (d.hour, toLex (d.minute, d.second)))))

/-- A Python exception value: the program distinguishes `ValueError`
(swallowed inside the tag loop by `except ValueError: pass`) from every
other exception type (absorbed only by the outer
`except Exception: pass` or by the per-file handler). -/
inductive PyErr where
  | valueError (msg : String)
  | other (msg : String)
deriving DecidableEq

/-- The message `str(e)` of an exception. -/
def PyErr.msg : PyErr → String
  | .valueError m => m
  | .other m => m

/-- Whether the exception is a `ValueError`. -/
def PyErr.isValueError : PyErr → Bool
  | .valueError _ => true
  | .other _ => false

/-- The value of a digit character. -/
def digitVal (c : Char) : Nat := c.toNat - 48

/-- Numeric directives of `strptime` (`%m`, `%d`, `%H`, `%M`, `%S`) match one
or two digits.  The regex tries the two-digit alternatives first; because
every directive is followed by a non-digit separator (or end of input), a
two-digit prefix can only ever match through a two-digit alternative, so
the match is deterministic: consume two digits when both are digits and
the two-digit value is admitted (`valid2`), else one digit when it is
admitted (`valid1`), else fail. -/
def matchNum2 (valid2 : Nat → Bool) (valid1 : Nat → Bool) :
    List Char → Option (Nat × List Char)
  | c1 :: c2 :: rest =>
    if c1.isDigit && c2.isDigit && valid2 (digitVal c1 * 10 + digitVal c2) then
      some (digitVal c1 * 10 + digitVal c2, rest)
    else if c1.isDigit && valid1 (digitVal c1) then
      some (digitVal c1, c2 :: rest)
    else none
  | [c1] =>
    if c1.isDigit && valid1 (digitVal c1) then some (digitVal c1, []) else none
  | [] => none

/-- The `%Y` directive of `strptime`: exactly four digits. -/
def matchYear : List Char → Option (Nat × List Char)
  | c1 :: c2 :: c3 :: c4 :: rest =>
    if c1.isDigit && c2.isDigit && c3.isDigit && c4.isDigit then
      some (((digitVal c1 * 10 + digitVal c2) * 10 + digitVal c3) * 10 + digitVal c4, rest)
    else none
  | _ => none

/-- Match one literal character of the format string. -/
def matchChar (c : Char) : List Char → Option (List Char)
  | d :: rest => if d = c then some rest else none
  | [] => none

/-- Gregorian leap year, as in Python's `calendar`/`datetime`. -/
def isLeap (y : Nat) : Bool := y % 4 = 0 && (y % 100 ≠ 0 || y % 400 = 0)

/-- Days in a month, used by the `datetime` constructor's validation. -/
def daysInMonth (y m : Nat) : Nat :=
  if m = 2 then (if isLeap y then 29 else 28)
  else if m = 4 || m = 6 || m = 9 || m = 11 then 30
  else 31

/-- Python's `datetime.strptime(s, '%Y:%m:%d %H:%M:%S')`, as `none` on `ValueError`.
The regex built by `_strptime` admits `%m` in 1..12, `%d` in 1..31,
`%H` in 0..23, `%M` in 0..59 and `%S` in 0..61 (each as one or two
digits), requires the whole string to be consumed, and the `datetime`
constructor then rejects year 0, a day beyond the month's length, and
the leap seconds 60 and 61. -/
def parseExifDatetime (s : String) : Option Datetime := do
  let (y, r) ← matchYear s.data
  let r ← matchChar ':' r
  let (mo, r) ← matchNum2 (fun v => 1 ≤ v && v ≤ 12) (fun v => 1 ≤ v) r
  let r ← matchChar ':' r
  let (d, r) ← matchNum2 (fun v => 1 ≤ v && v ≤ 31) (fun v => 1 ≤ v) r
  let r ← matchChar ' ' r
  let (h, r) ← matchNum2 (fun v => v ≤ 23) (fun _ => true) r
  let r ← matchChar ':' r
  let (mi, r) ← matchNum2 (fun v => v ≤ 59) (fun _ => true) r
  let r ← matchChar ':' r
  let (sec, r) ← matchNum2 (fun v => v ≤ 61) (fun _ => true) r
  if r = [] && 1 ≤ y && d ≤ daysInMonth y mo && sec ≤ 59 then
    some ⟨y, mo, d, h, mi, sec⟩
  else none

deriving instance DecidableEq for Except

/-- The state of one directory entry's file as the external collaborators
see it: whether `Image.open` raises (and with what), what
`img._getexif()` returns (`none` models Python `None`; the list is the
mapping's items in its iteration order, tag ids already translated
through `TAGS`), the mtime already converted by
`datetime.fromtimestamp(path.stat().st_mtime)`, and the OCR outcome. -/
structure FileState where
  openErr : Option PyErr
  exif : Option (List (String × String))
  mtime : Datetime
  ocr : Except PyErr String
deriving DecidableEq

/-- The tag names the loop recognizes:
`if tag in ['DateTimeOriginal', 'DateTime']`. -/
def exifTagWhitelist : List String := ["DateTimeOriginal", "DateTime"]

/-- The same `strptime` call in exception form:
raises `ValueError` exactly when the string does not parse. -/
def strptimeExif (s : String) : Except PyErr Datetime :=
  match parseExifDatetime s with
  | some d => .ok d
  | none => .error (.valueError ("time data does not match format: " ++ s))

/-- The `for tag_id in exif:` loop of `get_image_creation_time`.
`.ok (some r)` means a `return` statement executed; `.ok none` means the
loop fell through; `.error e` means an exception other than the
`ValueError` swallowed by `except ValueError: pass` escaped. -/
def scanExifTags : List (String × String) → Except PyErr (Option (Datetime × String))
  | [] => .ok none
  | (tag, v) :: rest =>
    if tag ∈ exifTagWhitelist then
      match strptimeExif v with
      | .ok d => .ok (some (d, "EXIF"))
      | .error e => if e.isValueError then scanExifTags rest else .error e
    else scanExifTags rest

/-- The body of the `try:` block of `get_image_creation_time`:
open the image (may raise), get the EXIF mapping, and scan it when it is
truthy (a non-`None`, non-empty dict). -/
def tryGetExifTime (f : FileState) : Except PyErr (Option (Datetime × String)) :=
  match f.openErr with
  | some e => .error e
  | none =>
    match f.exif with
    | none => .ok none
    | some items =>
      if items.isEmpty then .ok none
      else scanExifTags items

/-- Function `get_image_creation_time`: the EXIF instant when the scan returned
one, otherwise — after the loop fell through or
`except Exception: pass` absorbed an error — the filesystem fallback
`(datetime.fromtimestamp(path.stat().st_mtime), 'mtime')`. -/
def get_image_creation_time (f : FileState) : Datetime × String :=
  match tryGetExifTime f with
  | .ok (some r) => r
  | .ok none => (f.mtime, "mtime")
  | .error _ => (f.mtime, "mtime")

/-- One entry of `Path(folder_path).iterdir()`: its final name component,
whether it is a subdirectory, and the state of the underlying file. -/
structure DirEntry where
  name : String
  isDir : Bool
  state : FileState
deriving DecidableEq

/-- The `PurePath.suffix` rule of CPython's `pathlib`: with `i` the index of the
last dot of the name, the suffix is `name[i:]` when `0 < i < len - 1`,
else the empty string. -/
def pathSuffix (name : String) : String :=
  let cs := name.data
  match ((cs.enum.filter (fun p => p.2 = '.')).map (fun p => p.1)).getLast? with
  | some i => if 0 < i ∧ i < cs.length - 1 then ⟨cs.drop i⟩ else ""
  | none => ""

/-- ASCII lowercasing of one character.  Python's `str.lower()` is
Unicode-aware, but on the domain relevant here — deciding whether a
suffix equals one of five ASCII extension strings — no character outside
`A`–`Z` lowercases to a character of those extensions, so the ASCII map
is faithful. -/
def lowerChar (c : Char) : Char :=
  if 65 ≤ c.toNat ∧ c.toNat ≤ 90 then Char.ofNat (c.toNat + 32) else c

/-- Python's `.lower()` on a string, character by character. -/
def strLower (s : String) : String := ⟨s.data.map lowerChar⟩

/-- The set `supported_formats` of the source: `.png`, `.jpg`, `.jpeg`, `.tiff`, `.bmp`. -/
def supported_formats : List String := [".png", ".jpg", ".jpeg", ".tiff", ".bmp"]

/-- The membership test of the enumeration loop:
`file_path.suffix.lower() in supported_formats`. -/
def hasImageSuffix (name : String) : Bool :=
  strLower (pathSuffix name) ∈ supported_formats

/-- The enumeration loop of `get_image_files`: keep exactly the entries
whose lowercased suffix is in the allow-list (the entry's being a file
or a directory is never consulted). -/
def filterImages (entries : List DirEntry) : List DirEntry :=
  entries.filter (fun e => hasImageSuffix e.name)

/-- The sort key `lambda x: get_image_creation_time(x)[0]`. -/
def resolvedTime (e : DirEntry) : Datetime := (get_image_creation_time e.state).1

/-- The comparison `sorted` performs between two entries' keys:
Python compares the `datetime` keys, i.e. their lexicographic field
tuples. -/
def entryLE (a b : DirEntry) : Prop := (resolvedTime a).key ≤ (resolvedTime b).key

instance : DecidableRel entryLE := fun a b =>
  inferInstanceAs (Decidable ((resolvedTime a).key ≤ (resolvedTime b).key))

instance : IsTotal DirEntry entryLE := ⟨fun _ _ => le_total _ _⟩

instance : IsTrans DirEntry entryLE := ⟨fun _ _ _ h1 h2 => le_trans h1 h2⟩

/-- Function `get_image_files`: filter the directory listing by extension and
stable-sort by the resolved creation time.  Python's `sorted` is a
stable sort over the key's order; `List.insertionSort` is stable for
the same total preorder, and any two stable sorts of the same list
under the same preorder coincide, so this is the exact result. -/
def get_image_files (entries : List DirEntry) : List DirEntry :=
  List.insertionSort entryLE (filterImages entries)

/-- Paths on which `get_image_files` invokes the timestamp resolver:
`sorted(..., key=...)` evaluates its key exactly once per list element,
in list order. -/
def get_image_files_trace (entries : List DirEntry) : List String :=
  (filterImages entries).map (fun e => e.name)

/-- Left-pad a decimal numeral with zeros to width 2 (`strftime` `%m`,
`%d`, `%H`, `%M`, `%S`). -/
def pad2 (n : Nat) : String :=
  if n < 10 then "0" ++ toString n else toString n

/-- Left-pad a decimal numeral with zeros to width 4 (`strftime` `%Y`). -/
def pad4 (n : Nat) : String :=
  if n < 10 then "000" ++ toString n
  else if n < 100 then "00" ++ toString n
  else if n < 1000 then "0" ++ toString n
  else toString n

/-- The call `timestamp.strftime('%Y-%m-%d %H:%M:%S')`. -/
def formatTimestamp (d : Datetime) : String :=
  pad4 d.year ++ "-" ++ pad2 d.month ++ "-" ++ pad2 d.day ++ " " ++
    pad2 d.hour ++ ":" ++ pad2 d.minute ++ ":" ++ pad2 d.second

/-- The body of the per-file `try:` block of `process_images`: resolve
the timestamp (line 60; never raises), re-open the image (may raise),
run OCR (may raise), and on success produce the three strings written to
the output file (concatenated) together with the console line. -/
def tryProcessOne (e : DirEntry) : Except PyErr (String × String) :=
  let r := get_image_creation_time e.state
  let formatted_time := formatTimestamp r.1
  match e.state.openErr with
  | some err => .error err
  | none =>
    match e.state.ocr with
    | .error err => .error err
    | .ok text =>
      .ok ("\n--- Text from " ++ e.name ++ " (" ++ r.2 ++ " time: " ++
             formatted_time ++ ") ---\n" ++ text ++ "\n",
           "Processed: " ++ e.name ++ " (using " ++ r.2 ++ " timestamp)")

/-- Function `process_images(folder_path, output_file)`.  The output artifact's
current content is threaded through explicitly (`open(output_file, 'a')`
only ever appends); the result is the artifact's final content paired
with the console lines, in order.  A per-entry exception is caught at
the loop boundary: it yields one error line and writes nothing. -/
def process_images (folder_path : String) (entries : List DirEntry)
    (output : String) : String × List String :=
  let image_files := get_image_files entries
  if image_files.isEmpty then
    (output, ["No supported image files found in " ++ folder_path])
  else
    image_files.foldl
      (fun acc e =>
        match tryProcessOne e with
        | .ok r => (acc.1 ++ r.1, acc.2 ++ [r.2])
        | .error err => (acc.1, acc.2 ++ ["Error processing " ++ e.name ++ ": " ++ err.msg]))
      (output, [])

/-- Paths on which one run of `process_images` invokes the timestamp
resolver, in call order: once per filtered entry while `sorted`
computes the keys, then once per entry at the top of its loop iteration
(the resolver call is the first statement of the `try:` block and never
raises, so it happens for every entry, successful or not). -/
def process_images_trace (entries : List DirEntry) : List String :=
  get_image_files_trace entries ++ (get_image_files entries).map (fun e => e.name)

/-- The call `output_path.touch(exist_ok=True)` after `mkdir`: an existing file's
content is kept, a missing file is created empty. -/
def touchExistOk (existing : Option String) : String := existing.getD ""

/-- The `__main__` block: ensure the output file exists without
truncating it, then process the fixed input folder `"images"`.
`existing` is the output file's prior content (`none` when the file did
not exist). -/
def runMain (entries : List DirEntry) (existing : Option String) : String × List String :=
  let content := touchExistOk existing
  process_images ("images") entries content

/-! Characterizations of the per-entry processing step, used to state
what one loop iteration contributes to the output artifact and to the
console. -/

/-- The first exception the loop body raises for this entry, if any:
`Image.open` first, then the OCR engine. -/
def entryError (e : DirEntry) : Option PyErr :=
  match e.state.openErr with
  | some err => some err
  | none =>
    match e.state.ocr with
    | .error err => some err
    | .ok _ => none

/-- The recognized text when OCR succeeds. -/
def ocrText (e : DirEntry) : String :=
  match e.state.ocr with
  | .ok t => t
  | .error _ => ""

/-- The labeled block appended for a successfully processed entry. -/
def successBlock (e : DirEntry) : String :=
  "\n--- Text from " ++ e.name ++ " (" ++ (get_image_creation_time e.state).2 ++
    " time: " ++ formatTimestamp (get_image_creation_time e.state).1 ++ ") ---\n" ++
    ocrText e ++ "\n"

/-- What one entry contributes to the output artifact: its block on
success, nothing on failure. -/
def entryBlock (e : DirEntry) : String :=
  match entryError e with
  | some _ => ""
  | none => successBlock e

/-- The console line one entry produces: a processed line on success,
one error line naming the entry on failure. -/
def entryLogLine (e : DirEntry) : String :=
  match entryError e with
  | some err => "Error processing " ++ e.name ++ ": " ++ err.msg
  | none => "Processed: " ++ e.name ++ " (using " ++ (get_image_creation_time e.state).2 ++ " timestamp)"

/-- Concatenation of a list of strings. -/
def concatStrs : List String → String
  | [] => ""
  | s :: rest => s ++ concatStrs rest

theorem tryProcessOne_eq (e : DirEntry) :
    tryProcessOne e =
      match entryError e with
      | some err => .error err
      | none =>
        .ok (successBlock e,
             "Processed: " ++ e.name ++ " (using " ++ (get_image_creation_time e.state).2 ++ " timestamp)") := by
  rcases e with ⟨name, isDir, ⟨openErr, exif, mt, ocr⟩⟩
  cases openErr <;> cases ocr <;>
    simp [tryProcessOne, entryError, successBlock, ocrText]

theorem process_images_foldl (l : List DirEntry) (out : String) (log : List String) :
    l.foldl
      (fun acc e =>
        match tryProcessOne e with
        | .ok r => (acc.1 ++ r.1, acc.2 ++ [r.2])
        | .error err => (acc.1, acc.2 ++ ["Error processing " ++ e.name ++ ": " ++ err.msg]))
      (out, log)
      = (out ++ concatStrs (l.map entryBlock), log ++ l.map entryLogLine) := by
  induction l generalizing out log with
  | nil => simp [concatStrs]
  | cons e l ih =>
    rw [List.foldl_cons, List.map_cons, List.map_cons, concatStrs]
    rcases he : entryError e with _ | err
    · rw [show
        (match tryProcessOne e with
          | .ok r => ((out, log).1 ++ r.1, (out, log).2 ++ [r.2])
          | .error err => ((out, log).1, (out, log).2 ++ ["Error processing " ++ e.name ++ ": " ++ err.msg]))
          = (out ++ successBlock e,
             log ++ ["Processed: " ++ e.name ++ " (using " ++ (get_image_creation_time e.state).2 ++ " timestamp)"])
        from by rw [tryProcessOne_eq e, he]]
      rw [ih]
      simp [entryBlock, entryLogLine, he, String.append_assoc]
    · rw [show
        (match tryProcessOne e with
          | .ok r => ((out, log).1 ++ r.1, (out, log).2 ++ [r.2])
          | .error err => ((out, log).1, (out, log).2 ++ ["Error processing " ++ e.name ++ ": " ++ err.msg]))
          = (out, log ++ ["Error processing " ++ e.name ++ ": " ++ err.msg])
        from by rw [tryProcessOne_eq e, he]]
      rw [ih]
      simp [entryBlock, entryLogLine, he, String.append_assoc]

/-- Running `process_images` on a non-empty candidate set: the artifact grows by
exactly the concatenation of the per-entry blocks, and the console shows
exactly one line per entry, in sorted order. -/
theorem process_images_eq (folder : String) (entries : List DirEntry) (out : String)
    (h : ¬ (get_image_files entries).isEmpty) :
    process_images folder entries out
      = (out ++ concatStrs ((get_image_files entries).map entryBlock),
         (get_image_files entries).map entryLogLine) := by
  rw [process_images, if_neg (by simpa using h)]
  simpa using process_images_foldl (get_image_files entries) out []

/-! Lemmas about the EXIF scan and the resolver. -/

/-- A successful scan always carries the provenance label `EXIF`. -/
theorem scanExifTags_src {l : List (String × String)} {d : Datetime} {s : String}
    (h : scanExifTags l = .ok (some (d, s))) : s = "EXIF" := by
  induction l with
  | nil => simp [scanExifTags] at h
  | cons p rest ih =>
    obtain ⟨tag, v⟩ := p
    rw [scanExifTags] at h
    by_cases htag : tag ∈ exifTagWhitelist
    · rw [if_pos htag] at h
      cases hs : strptimeExif v with
      | ok d2 =>
        rw [hs] at h
        simp only [Except.ok.injEq, Option.some.injEq, Prod.mk.injEq] at h
        exact h.2.symm
      | error e =>
        rw [hs] at h
        dsimp only at h
        by_cases hv : e.isValueError
        · rw [if_pos hv] at h; exact ih h
        · rw [if_neg hv] at h; simp at h
    · rw [if_neg htag] at h; exact ih h

/-- When no recognized tag has a parsable value, the loop falls through. -/
theorem scanExifTags_none {l : List (String × String)}
    (h : ∀ p ∈ l, p.1 ∈ exifTagWhitelist → parseExifDatetime p.2 = none) :
    scanExifTags l = .ok none := by
  induction l with
  | nil => rfl
  | cons p rest ih =>
    obtain ⟨tag, v⟩ := p
    rw [scanExifTags]
    by_cases htag : tag ∈ exifTagWhitelist
    · rw [if_pos htag]
      have hv : parseExifDatetime v = none := h (tag, v) (List.mem_cons_self _ _) htag
      rw [show strptimeExif v = .error (.valueError ("time data does not match format: " ++ v))
        from by rw [strptimeExif, hv]]
      exact ih fun p hp => h p (List.mem_cons_of_mem _ hp)
    · rw [if_neg htag]
      exact ih fun p hp => h p (List.mem_cons_of_mem _ hp)

/-- A leading segment without a recognized, parsable tag does not affect
the scan: every entry of it is either unrecognized or swallowed by
`except ValueError: pass`. -/
theorem scanExifTags_append {pre l : List (String × String)}
    (h : ∀ p ∈ pre, p.1 ∈ exifTagWhitelist → parseExifDatetime p.2 = none) :
    scanExifTags (pre ++ l) = scanExifTags l := by
  induction pre with
  | nil => rfl
  | cons p rest ih =>
    obtain ⟨tag, v⟩ := p
    rw [List.cons_append, scanExifTags]
    by_cases htag : tag ∈ exifTagWhitelist
    · rw [if_pos htag]
      have hv : parseExifDatetime v = none := h (tag, v) (List.mem_cons_self _ _) htag
      rw [show strptimeExif v = .error (.valueError ("time data does not match format: " ++ v))
        from by rw [strptimeExif, hv]]
      exact ih fun p hp => h p (List.mem_cons_of_mem _ hp)
    · rw [if_neg htag]
      exact ih fun p hp => h p (List.mem_cons_of_mem _ hp)

/-- The resolver on a decodable image with an EXIF mapping is governed
entirely by the scan of the mapping's items. -/
theorem gict_eq_scan (items : List (String × String)) (mt : Datetime)
    (o : Except PyErr String) :
    get_image_creation_time ⟨none, some items, mt, o⟩
      = match scanExifTags items with
        | .ok (some r) => r
        | .ok none => (mt, "mtime")
        | .error _ => (mt, "mtime") := by
  cases items with
  | nil => simp [get_image_creation_time, tryGetExifTime, scanExifTags]
  | cons p rest => simp [get_image_creation_time, tryGetExifTime]

/-- Whenever the `try:` block returns an instant, its provenance label is
`EXIF`. -/
theorem tryGetExifTime_src {f : FileState} {r : Datetime × String}
    (h : tryGetExifTime f = .ok (some r)) : r.2 = "EXIF" := by
  obtain ⟨d, s⟩ := r
  rcases f with ⟨openErr, exif, mt, ocr⟩
  cases openErr with
  | some e => simp [tryGetExifTime] at h
  | none =>
    cases exif with
    | none => simp [tryGetExifTime] at h
    | some items =>
      rw [tryGetExifTime] at h
      dsimp only at h
      by_cases he : items.isEmpty
      · rw [if_pos he] at h; simp at h
      · rw [if_neg he] at h; exact scanExifTags_src h

/-! Stability of the sort: for each fixed timestamp value, the
subsequence of entries resolving to that timestamp is unchanged by the
sort. -/

theorem filter_time_orderedInsert (t : Datetime) (a : DirEntry) (l : List DirEntry) :
    (List.orderedInsert entryLE a l).filter (fun e => decide (resolvedTime e = t))
      = if resolvedTime a = t then
          a :: l.filter (fun e => decide (resolvedTime e = t))
        else l.filter (fun e => decide (resolvedTime e = t)) := by
  induction l with
  | nil => by_cases ha : resolvedTime a = t <;> simp [List.orderedInsert, ha]
  | cons b l ih =>
    by_cases hab : entryLE a b
    · rw [List.orderedInsert, if_pos hab]
      by_cases ha : resolvedTime a = t <;> simp [List.filter_cons, ha]
    · rw [List.orderedInsert, if_neg hab]
      have hba : (resolvedTime b).key < (resolvedTime a).key := not_le.mp hab
      have hbt : resolvedTime b ≠ resolvedTime a :=
        fun hh => absurd (congrArg Datetime.key hh) (ne_of_lt hba)
      by_cases ha : resolvedTime a = t
      · have hb : resolvedTime b ≠ t := ha ▸ hbt
        simp [List.filter_cons, hb, ih, ha]
      · by_cases hb : resolvedTime b = t <;> simp [List.filter_cons, hb, ih, ha]

theorem filter_time_insertionSort (t : Datetime) (l : List DirEntry) :
    (List.insertionSort entryLE l).filter (fun e => decide (resolvedTime e = t))
      = l.filter (fun e => decide (resolvedTime e = t)) := by
  induction l with
  | nil => rfl
  | cons a l ih =>
    rw [List.insertionSort, filter_time_orderedInsert]
    by_cases ha : resolvedTime a = t <;> simp [List.filter_cons, ha, ih]

/-- The whole batch only ever appends: its final artifact content is the
initial content followed by what the batch produces from scratch. -/
theorem process_images_shift (folder : String) (entries : List DirEntry) (out : String) :
    (process_images folder entries out).1 = out ++ (process_images folder entries ("")).1 := by
  by_cases h : (get_image_files entries).isEmpty
  · simp [process_images, h]
  · rw [process_images_eq folder entries out h, process_images_eq folder entries ("") h]
    simp

/-! The claims. -/

/-- C1, counterexample: a metadata mapping whose iteration order lists
the generic `DateTime` tag before `DateTimeOriginal`, both with
parsable values, resolves to the generic tag's instant — not the
capture-specific one — so the resolution is *not* independent of the
mapping's iteration order. -/
theorem C1_counterexample :
    parseExifDatetime ("2002:02:02 02:02:02") = some ⟨2002, 2, 2, 2, 2, 2⟩ ∧
    parseExifDatetime ("2001:01:01 00:00:00") = some ⟨2001, 1, 1, 0, 0, 0⟩ ∧
    get_image_creation_time
        ⟨none,
         some [("DateTime", "2001:01:01 00:00:00"), ("DateTimeOriginal", "2002:02:02 02:02:02")],
         ⟨1990, 1, 1, 0, 0, 0⟩, .ok ("")⟩
      = (⟨2001, 1, 1, 0, 0, 0⟩, "EXIF") ∧
    (⟨2001, 1, 1, 0, 0, 0⟩ : Datetime) ≠ ⟨2002, 2, 2, 2, 2, 2⟩ :=
  ⟨by decide, by decide, by decide, by decide⟩

/-- C1, amended: the resolver returns the instant of the *first* tag in
the mapping's iteration order that is recognized (`DateTimeOriginal` or
`DateTime`) and parses, with provenance `EXIF`; in particular the
capture-specific tag wins exactly when no recognized, parsable tag
precedes it. -/
theorem C1_first_recognized_tag_wins (pre : List (String × String)) (tag v : String)
    (rest : List (String × String)) (d : Datetime) (mt : Datetime) (o : Except PyErr String)
    (hpre : ∀ p ∈ pre, p.1 ∈ exifTagWhitelist → parseExifDatetime p.2 = none)
    (htag : tag ∈ exifTagWhitelist) (hv : parseExifDatetime v = some d) :
    get_image_creation_time ⟨none, some (pre ++ (tag, v) :: rest), mt, o⟩ = (d, "EXIF") := by
  rw [gict_eq_scan, scanExifTags_append hpre]
  simp [scanExifTags, htag, strptimeExif, hv]

/-- Witness for C1's amended theorem: `DateTimeOriginal` first in
iteration order, both tags parsable — the capture-specific instant is
returned. -/
theorem C1_first_recognized_tag_wins_witness :
    get_image_creation_time
        ⟨none,
         some ([] ++ ("DateTimeOriginal", "2002:02:02 02:02:02") :: [("DateTime", "2001:01:01 00:00:00")]),
         ⟨1990, 1, 1, 0, 0, 0⟩, .ok ("")⟩
      = (⟨2002, 2, 2, 2, 2, 2⟩, "EXIF") :=
  C1_first_recognized_tag_wins [] ("DateTimeOriginal") ("2002:02:02 02:02:02")
    [("DateTime", "2001:01:01 00:00:00")] ⟨2002, 2, 2, 2, 2, 2⟩ ⟨1990, 1, 1, 0, 0, 0⟩
    (.ok ("")) (by simp) (by decide) (by decide)

/-- C2, counterexample: in a batch over a single candidate file, the
timestamp resolver runs on that file's path twice — once while `sorted`
computes the key and once at the top of the processing loop — not
exactly once. -/
theorem C2_counterexample :
    (process_images_trace
        [⟨"a.png", false, ⟨none, none, ⟨2020, 1, 1, 0, 0, 0⟩, .ok ("hello")⟩⟩]).count ("a.png") = 2 ∧
    ¬ ((process_images_trace
        [⟨"a.png", false, ⟨none, none, ⟨2020, 1, 1, 0, 0, 0⟩, .ok ("hello")⟩⟩]).count ("a.png") = 1) :=
  ⟨by decide, by decide⟩

/-- C2, amended: the resolver runs exactly twice per candidate (once for
the sort key, once during that file's loop iteration); both runs are the
same pure function of the unchanged file state, so the instant and
provenance written into the output block are exactly the sort key's
resolution (`resolvedTime`). -/
theorem C2_resolve_twice (entries : List DirEntry) (e : DirEntry)
    (hnd : ((filterImages entries).map (fun x => x.name)).Nodup)
    (he : e ∈ filterImages entries) :
    (process_images_trace entries).count e.name = 2 ∧
    successBlock e
      = "\n--- Text from " ++ e.name ++ " (" ++ (get_image_creation_time e.state).2 ++
          " time: " ++ formatTimestamp (resolvedTime e) ++ ") ---\n" ++ ocrText e ++ "\n" := by
  constructor
  · rw [process_images_trace, List.count_append, get_image_files_trace]
    have h1 : ((filterImages entries).map (fun x => x.name)).count e.name = 1 :=
      List.count_eq_one_of_mem hnd (List.mem_map_of_mem _ he)
    have hperm :
        ((get_image_files entries).map (fun x => x.name)).Perm
          ((filterImages entries).map (fun x => x.name)) :=
      (List.perm_insertionSort entryLE _).map _
    rw [h1, hperm.count_eq]
    rw [h1]
  · rfl

/-- Witness for C2's amended theorem at a concrete one-file batch. -/
theorem C2_resolve_twice_witness :
    (process_images_trace
        [⟨"b.jpg", false, ⟨none, none, ⟨2021, 3, 4, 5, 6, 7⟩, .ok ("text")⟩⟩]).count ("b.jpg") = 2 ∧
    successBlock ⟨"b.jpg", false, ⟨none, none, ⟨2021, 3, 4, 5, 6, 7⟩, .ok ("text")⟩⟩
      = "\n--- Text from " ++ "b.jpg" ++ " (" ++
          (get_image_creation_time ⟨none, none, ⟨2021, 3, 4, 5, 6, 7⟩, .ok ("text")⟩).2 ++
          " time: " ++
          formatTimestamp (resolvedTime ⟨"b.jpg", false, ⟨none, none, ⟨2021, 3, 4, 5, 6, 7⟩, .ok ("text")⟩⟩) ++
          ") ---\n" ++ ocrText ⟨"b.jpg", false, ⟨none, none, ⟨2021, 3, 4, 5, 6, 7⟩, .ok ("text")⟩⟩ ++ "\n" :=
  C2_resolve_twice [⟨"b.jpg", false, ⟨none, none, ⟨2021, 3, 4, 5, 6, 7⟩, .ok ("text")⟩⟩]
    ⟨"b.jpg", false, ⟨none, none, ⟨2021, 3, 4, 5, 6, 7⟩, .ok ("text")⟩⟩
    (by decide) (by decide)

/-- C3: whatever makes capture-time metadata unavailable — the image
fails to decode, no recognized tag is present (or the mapping is absent
or empty), or every recognized tag's value is malformed — the resolver
returns exactly the filesystem modification instant with provenance
`mtime`, identically across all sub-cases. -/
theorem C3_fallback_uniform (err : PyErr) (ex : Option (List (String × String)))
    (l : List (String × String)) (mt : Datetime) (o1 o2 o3 : Except PyErr String)
    (h : ∀ p ∈ l, p.1 ∈ exifTagWhitelist → parseExifDatetime p.2 = none) :
    get_image_creation_time ⟨some err, ex, mt, o1⟩ = (mt, "mtime") ∧
    get_image_creation_time ⟨none, none, mt, o2⟩ = (mt, "mtime") ∧
    get_image_creation_time ⟨none, some l, mt, o3⟩ = (mt, "mtime") := by
  refine ⟨rfl, rfl, ?_⟩
  rw [gict_eq_scan, scanExifTags_none h]

/-- Witness for C3 at a corrupt image, a missing mapping, and a mapping
whose only recognized tag is malformed. -/
theorem C3_fallback_uniform_witness :
    get_image_creation_time
        ⟨some (PyErr.other ("cannot identify image file")), some [("DateTime", "oops")],
         ⟨2020, 5, 6, 7, 8, 9⟩, .ok ("")⟩ = (⟨2020, 5, 6, 7, 8, 9⟩, "mtime") ∧
    get_image_creation_time ⟨none, none, ⟨2020, 5, 6, 7, 8, 9⟩, .ok ("")⟩
      = (⟨2020, 5, 6, 7, 8, 9⟩, "mtime") ∧
    get_image_creation_time
        ⟨none, some [("DateTime", "oops"), ("Make", "Canon")], ⟨2020, 5, 6, 7, 8, 9⟩, .ok ("")⟩
      = (⟨2020, 5, 6, 7, 8, 9⟩, "mtime") :=
  C3_fallback_uniform (PyErr.other ("cannot identify image file")) (some [("DateTime", "oops")])
    [("DateTime", "oops"), ("Make", "Canon")] ⟨2020, 5, 6, 7, 8, 9⟩
    (.ok ("")) (.ok ("")) (.ok ("")) (by decide)

/-- C4: the resolver is total on existing, readable files — its result is
always a tagged pair, either an EXIF instant or the mtime fallback, and
in particular any exception raised inside the `try:` block is absorbed
into the fallback rather than reaching the caller. -/
theorem C4_resolver_total (f : FileState) :
    ((∃ d, get_image_creation_time f = (d, "EXIF")) ∨
      get_image_creation_time f = (f.mtime, "mtime")) ∧
    (∀ e, tryGetExifTime f = .error e → get_image_creation_time f = (f.mtime, "mtime")) := by
  constructor
  · cases hf : tryGetExifTime f with
    | ok o =>
      cases o with
      | some r =>
        obtain ⟨d, s⟩ := r
        have hs : s = "EXIF" := tryGetExifTime_src hf
        subst hs
        exact Or.inl ⟨d, by simp [get_image_creation_time, hf]⟩
      | none => exact Or.inr (by simp [get_image_creation_time, hf])
    | error e => exact Or.inr (by simp [get_image_creation_time, hf])
  · intro e he
    simp [get_image_creation_time, he]

/-- Witness for C4: a file whose decode raises still yields the mtime
pair, the exception having been absorbed. -/
theorem C4_resolver_total_witness :
    get_image_creation_time ⟨some (PyErr.other ("boom")), none, ⟨2019, 12, 31, 23, 59, 58⟩, .ok ("")⟩
      = (⟨2019, 12, 31, 23, 59, 58⟩, "mtime") :=
  (C4_resolver_total ⟨some (PyErr.other ("boom")), none, ⟨2019, 12, 31, 23, 59, 58⟩, .ok ("")⟩).2
    (PyErr.other ("boom")) rfl

/-- C5: the batch sort is ascending in the resolved timestamp
(lexicographic comparison of Python datetimes) and stable — for every
timestamp value, the entries resolving to it appear in exactly their
raw-enumeration order. -/
theorem C5_sort_stable (entries : List DirEntry) (t : Datetime) :
    List.Sorted entryLE (get_image_files entries) ∧
    (get_image_files entries).filter (fun e => decide (resolvedTime e = t))
      = entries.filter (fun e => decide (resolvedTime e = t) && hasImageSuffix e.name) := by
  constructor
  · exact List.sorted_insertionSort entryLE _
  · rw [get_image_files, filter_time_insertionSort, filterImages, List.filter_filter]

/-- C6: per-entry failure isolation — on a non-empty batch the console
gets exactly one line per sorted entry (an error line naming the entry
when its decode or OCR raised, a processed line otherwise), the artifact
grows by exactly the concatenation of the successful entries' blocks,
and a failing entry contributes an empty block plus its single error
line while the remaining entries are still processed in sorted order. -/
theorem C6_failure_isolation (folder : String) (entries : List DirEntry) (out : String)
    (h : ¬ (get_image_files entries).isEmpty) :
    (process_images folder entries out).2 = (get_image_files entries).map entryLogLine ∧
    (process_images folder entries out).1
      = out ++ concatStrs ((get_image_files entries).map entryBlock) ∧
    (∀ e ∈ get_image_files entries, ∀ err, entryError e = some err →
      entryBlock e = "" ∧
      ("Error processing " ++ e.name ++ ": " ++ err.msg) ∈ (process_images folder entries out).2) := by
  have hp := process_images_eq folder entries out h
  refine ⟨by rw [hp], by rw [hp], ?_⟩
  intro e he err herr
  refine ⟨by simp [entryBlock, herr], ?_⟩
  rw [hp]
  have hline : entryLogLine e = "Error processing " ++ e.name ++ ": " ++ err.msg := by
    simp [entryLogLine, herr]
  exact hline ▸ List.mem_map_of_mem entryLogLine he

/-- Witness for C6: the spec's mixed batch — three candidates, the
middle one failing to decode. -/
theorem C6_failure_isolation_witness :
    (process_images ("images")
        [⟨"a.png", false, ⟨none, none, ⟨2020, 1, 1, 0, 0, 0⟩, .ok ("alpha")⟩⟩,
         ⟨"b.png", false, ⟨some (PyErr.other ("cannot identify image file")), none,
            ⟨2020, 1, 2, 0, 0, 0⟩, .error (PyErr.other ("cannot identify image file"))⟩⟩,
         ⟨"c.png", false, ⟨none, none, ⟨2020, 1, 3, 0, 0, 0⟩, .ok ("gamma")⟩⟩] ("prev")).2
      = (get_image_files
          [⟨"a.png", false, ⟨none, none, ⟨2020, 1, 1, 0, 0, 0⟩, .ok ("alpha")⟩⟩,
           ⟨"b.png", false, ⟨some (PyErr.other ("cannot identify image file")), none,
              ⟨2020, 1, 2, 0, 0, 0⟩, .error (PyErr.other ("cannot identify image file"))⟩⟩,
           ⟨"c.png", false, ⟨none, none, ⟨2020, 1, 3, 0, 0, 0⟩, .ok ("gamma")⟩⟩]).map entryLogLine ∧
    (process_images ("images")
        [⟨"a.png", false, ⟨none, none, ⟨2020, 1, 1, 0, 0, 0⟩, .ok ("alpha")⟩⟩,
         ⟨"b.png", false, ⟨some (PyErr.other ("cannot identify image file")), none,
            ⟨2020, 1, 2, 0, 0, 0⟩, .error (PyErr.other ("cannot identify image file"))⟩⟩,
         ⟨"c.png", false, ⟨none, none, ⟨2020, 1, 3, 0, 0, 0⟩, .ok ("gamma")⟩⟩] ("prev")).1
      = "prev" ++ concatStrs
          ((get_image_files
            [⟨"a.png", false, ⟨none, none, ⟨2020, 1, 1, 0, 0, 0⟩, .ok ("alpha")⟩⟩,
             ⟨"b.png", false, ⟨some (PyErr.other ("cannot identify image file")), none,
                ⟨2020, 1, 2, 0, 0, 0⟩, .error (PyErr.other ("cannot identify image file"))⟩⟩,
             ⟨"c.png", false, ⟨none, none, ⟨2020, 1, 3, 0, 0, 0⟩, .ok ("gamma")⟩⟩]).map entryBlock) :=
  ⟨(C6_failure_isolation ("images")
      [⟨"a.png", false, ⟨none, none, ⟨2020, 1, 1, 0, 0, 0⟩, .ok ("alpha")⟩⟩,
       ⟨"b.png", false, ⟨some (PyErr.other ("cannot identify image file")), none,
          ⟨2020, 1, 2, 0, 0, 0⟩, .error (PyErr.other ("cannot identify image file"))⟩⟩,
       ⟨"c.png", false, ⟨none, none, ⟨2020, 1, 3, 0, 0, 0⟩, .ok ("gamma")⟩⟩] ("prev") (by decide)).1,
   (C6_failure_isolation ("images")
      [⟨"a.png", false, ⟨none, none, ⟨2020, 1, 1, 0, 0, 0⟩, .ok ("alpha")⟩⟩,
       ⟨"b.png", false, ⟨some (PyErr.other ("cannot identify image file")), none,
          ⟨2020, 1, 2, 0, 0, 0⟩, .error (PyErr.other ("cannot identify image file"))⟩⟩,
       ⟨"c.png", false, ⟨none, none, ⟨2020, 1, 3, 0, 0, 0⟩, .ok ("gamma")⟩⟩] ("prev") (by decide)).2.1⟩

/-- C7, counterexample: the enumeration filter tests only the lowercased
name suffix and never asks whether the entry is a file, so a
*subdirectory* named `d.png` is selected as a candidate — while the
claim's filter (files only) excludes it. -/
theorem C7_counterexample :
    get_image_files
        [⟨"d.png", true, ⟨some (PyErr.other ("IsADirectoryError")), none,
            ⟨2020, 1, 1, 0, 0, 0⟩, .error (PyErr.other ("not an image"))⟩⟩]
      = [⟨"d.png", true, ⟨some (PyErr.other ("IsADirectoryError")), none,
            ⟨2020, 1, 1, 0, 0, 0⟩, .error (PyErr.other ("not an image"))⟩⟩] ∧
    ([⟨"d.png", true, ⟨some (PyErr.other ("IsADirectoryError")), none,
        ⟨2020, 1, 1, 0, 0, 0⟩, .error (PyErr.other ("not an image"))⟩⟩] : List DirEntry).filter
        (fun e => !e.isDir && hasImageSuffix e.name)
      = [] :=
  ⟨by decide, by decide⟩

/-- C7, amended: the candidate set consists of exactly the directory
entries — files or subdirectories alike — whose name's extension,
lowercased, is one of `.png`, `.jpg`, `.jpeg`, `.tiff`, `.bmp`; every
other entry is silently excluded. -/
theorem C7_extension_filter (entries : List DirEntry) (e : DirEntry) :
    e ∈ get_image_files entries ↔ e ∈ entries ∧ hasImageSuffix e.name = true := by
  rw [get_image_files, List.Perm.mem_iff (List.perm_insertionSort entryLE _),
    filterImages, List.mem_filter]

/-- C8: with no candidate after filtering, the run reports exactly the
one informational line, returns normally, and the output artifact keeps
exactly the content that `touch(exist_ok=True)` ensured — nothing is
appended. -/
theorem C8_empty_input (folder : String) (entries : List DirEntry) (existing : Option String)
    (out : String) (h : filterImages entries = []) :
    process_images folder entries out = (out, ["No supported image files found in " ++ folder]) ∧
    runMain entries existing
      = (touchExistOk existing, ["No supported image files found in " ++ "images"]) := by
  have hempty : get_image_files entries = [] := by
    rw [get_image_files, h]
    rfl
  constructor
  · simp [process_images, hempty]
  · simp [runMain, process_images, hempty]

/-- Witness for C8: a directory with a single non-image file and a
pre-existing non-empty artifact. -/
theorem C8_empty_input_witness :
    process_images ("images")
        [⟨"b.txt", false, ⟨none, none, ⟨2020, 1, 1, 0, 0, 0⟩, .ok ("")⟩⟩] ("prev")
      = ("prev", ["No supported image files found in " ++ "images"]) ∧
    runMain [⟨"b.txt", false, ⟨none, none, ⟨2020, 1, 1, 0, 0, 0⟩, .ok ("")⟩⟩] (some ("old"))
      = (touchExistOk (some ("old")), ["No supported image files found in " ++ "images"]) :=
  C8_empty_input ("images") [⟨"b.txt", false, ⟨none, none, ⟨2020, 1, 1, 0, 0, 0⟩, .ok ("")⟩⟩]
    (some ("old")) ("prev") (by decide)

/-- C9: the artifact is append-only — any run's final content extends the
initial content, and running the batch twice over the same directory
state on a pre-existing artifact leaves the original content followed by
two full copies of the batch output. -/
theorem C9_append_only (folder : String) (entries : List DirEntry) (out c : String) :
    (∃ t, (process_images folder entries out).1 = out ++ t) ∧
    (runMain entries (some ((runMain entries (some c)).1))).1
      = c ++ (process_images ("images") entries ("")).1
          ++ (process_images ("images") entries ("")).1 := by
  constructor
  · exact ⟨(process_images folder entries ("")).1, process_images_shift folder entries out⟩
  · calc (runMain entries (some ((runMain entries (some c)).1))).1
        = (process_images ("images") entries ((runMain entries (some c)).1)).1 := rfl
      _ = (runMain entries (some c)).1 ++ (process_images ("images") entries ("")).1 :=
          process_images_shift ("images") entries _
      _ = (process_images ("images") entries c).1 ++ (process_images ("images") entries ("")).1 := rfl
      _ = (c ++ (process_images ("images") entries ("")).1)
            ++ (process_images ("images") entries ("")).1 := by
          rw [process_images_shift ("images") entries c]

/-- C10: a recognized tag whose value fails to parse does not trigger the
fallback — the scan simply continues past it, and a later recognized
tag whose value parses still yields that instant with provenance
`EXIF`. -/
theorem C10_malformed_tag_skipped (tag bad : String) (rest : List (String × String))
    (mt : Datetime) (o : Except PyErr String)
    (htag : tag ∈ exifTagWhitelist) (hbad : parseExifDatetime bad = none) :
    get_image_creation_time ⟨none, some ((tag, bad) :: rest), mt, o⟩
      = get_image_creation_time ⟨none, some rest, mt, o⟩ ∧
    (∀ d s, scanExifTags rest = .ok (some (d, s)) →
      get_image_creation_time ⟨none, some ((tag, bad) :: rest), mt, o⟩ = (d, s)) := by
  have hskip : scanExifTags ((tag, bad) :: rest) = scanExifTags rest := by
    rw [scanExifTags, if_pos htag,
      show strptimeExif bad = .error (.valueError ("time data does not match format: " ++ bad))
        from by rw [strptimeExif, hbad]]
    rfl
  constructor
  · rw [gict_eq_scan, gict_eq_scan, hskip]
  · intro d s hd
    rw [gict_eq_scan, hskip, hd]

/-- Witness for C10: a malformed `DateTimeOriginal` followed by a
parsable `DateTime` still resolves to the latter's instant as EXIF. -/
theorem C10_malformed_tag_skipped_witness :
    get_image_creation_time
        ⟨none, some [("DateTimeOriginal", "2002-02-02 02:02:02"), ("DateTime", "2003:03:03 03:03:03")],
         ⟨1990, 1, 1, 0, 0, 0⟩, .ok ("")⟩
      = (⟨2003, 3, 3, 3, 3, 3⟩, "EXIF") :=
  (C10_malformed_tag_skipped ("DateTimeOriginal") ("2002-02-02 02:02:02")
      [("DateTime", "2003:03:03 03:03:03")] ⟨1990, 1, 1, 0, 0, 0⟩ (.ok (""))
      (by decide) (by decide)).2
    ⟨2003, 3, 3, 3, 3, 3⟩ ("EXIF") (by decide)

end Clio
